import Mathlib

/-!
dcos-checks: the components check, endpoint resolution and the check dispatcher.

A shallow embedding of `packages/dcos-checks/extra/dcos-checks/cmd`
(`root.go`, `components.go`, `checks.go`).

Conventions of the embedding:

* Go `int` values (status codes, ports, unit health) are `Int`.
* Go `string` is `String`; `[]string` is `List String`.
* A Go `error` is `Option GoError` (`none` is `nil`); a `(T, error)` result is
  `Except GoError T`.
* Library calls whose code lives outside this package (`net.ParseIP`, the
  node-info detector, the HTTP client, `json.Unmarshal`, ...) are fields of `Env`.
* Calls that touch the outside world are recorded, in order, in a list of `Event`s.
-/

set_option autoImplicit false

namespace cmd

/-! ## Status codes (root.go, lines 31-36) -/

def statusOK : Int := 0
def statusWarning : Int := 1
def statusFailure : Int := 2
def statusUnknown : Int := 3

/-! ## Errors -/

/-- The type `ErrInvalidConfig string` of root.go. -/
structure ErrInvalidConfig where
  s : String
  deriving DecidableEq, Repr

/-- Go error values that occur in this package: an `ErrInvalidConfig`, a value built by
`fmt.Errorf`, or an error handed back by a library outside the package. -/
inductive GoError where
  | invalidConfig (e : ErrInvalidConfig)
  | errorf (msg : String)
  | foreign (msg : String)
  deriving DecidableEq, Repr

/-- `func (e ErrInvalidConfig) Error() string`. -/
def ErrInvalidConfig.Error (e : ErrInvalidConfig) : String := e.s

/-- `func (e ErrInvalidConfig) Msg(s string) error`: the receiver is passed by value, so the
assignment `e = ErrInvalidConfig(s)` changes the local copy only; the new value is the result. -/
def ErrInvalidConfig.Msg (_e : ErrInvalidConfig) (s : String) : GoError :=
  GoError.invalidConfig ⟨s⟩

/-- The zero value of `ErrInvalidConfig`, as declared by `var err ErrInvalidConfig`. -/
def ErrInvalidConfig.zero : ErrInvalidConfig := ⟨""⟩

deriving instance DecidableEq for Except

/-- The method `Error()` of the `error` interface. -/
def GoError.Error : GoError → String
  | GoError.invalidConfig e => e.Error
  | GoError.errorf msg => msg
  | GoError.foreign msg => msg

/-- Whether the dynamic type of the error is `ErrInvalidConfig`. -/
def GoError.isErrInvalidConfig : GoError → Bool
  | GoError.invalidConfig _ => true
  | _ => false

/-! ## Diagnostics response and health evaluation (components.go, lines 79-102) -/

/-- One element of `diagnosticsResponse.Units`. -/
structure diagnosticsUnit where
  ID : String
  Health : Int
  Output : String
  Description : String
  Help : String
  Name : String
  deriving DecidableEq, Repr

structure diagnosticsResponse where
  Units : List diagnosticsUnit
  deriving DecidableEq, Repr

/-- `fmt.Sprintf("component %s has health status %d", unit.Name, unit.Health)`. -/
def complaint (unit : diagnosticsUnit) : String :=
  "component " ++ unit.Name ++ " has health status " ++ toString unit.Health

/-- One iteration of the loop of `checkHealth`. -/
def checkHealth.step (errorList : List String) (unit : diagnosticsUnit) : List String :=
  if unit.Health ≠ statusOK then errorList ++ [complaint unit] else errorList

/-- `func (d *diagnosticsResponse) checkHealth() ([]string, int)`. -/
def diagnosticsResponse.checkHealth (d : diagnosticsResponse) : List String × Int :=
  let errorList := d.Units.foldl checkHealth.step []
  let retCode := if errorList.length > 0 then statusFailure else statusOK
  (errorList, retCode)

/-- `strings.Join(elems, sep)`. -/
def strings.Join : List String → String → String
  | [], _ => ""
  | e :: es, sep => es.foldl (fun b s => b ++ sep ++ s) e

/-! ## Configuration and the outside world -/

/-- The struct `CLIConfigFlags` of root.go. -/
structure CLIConfigFlags where
  CACert : String
  Verbose : Bool
  ForceTLS : Bool
  IAMConfig : String
  Role : String
  DetectIP : String
  NodeIPStr : String
  deriving DecidableEq, Repr

/-- The type `net.IP`, a slice of bytes. -/
abbrev net.IP := List Nat

/-- The fields of `url.URL` that `getHealthURL` sets. -/
structure URL where
  Scheme : String
  Host : String
  Path : String
  deriving DecidableEq, Repr

/-- The request built by `http.NewRequest(method, url, nil)`. -/
structure Request where
  method : String
  url : String
  deriving DecidableEq, Repr

/-- The response of `httpClient.Do`: what matters to `Run` is what reading its body gives. -/
structure Response where
  Body : Except GoError String

/-- Calls that reach outside the process, and log lines, in the order they happen. -/
inductive Event where
  | NewNodeInfo (role : String) (forceTLS : Bool)
  | DetectIP (role : String) (forceTLS : Bool)
  | Do (req : Request)
  | Infof (msg : String)
  | Debugf (msg : String)
  deriving DecidableEq, Repr

/-- Modelled from the spec: the role constants of package `github.com/dcos/dcos-go/dcos`, which is
not part of the sources; the spec gives the three role strings as `master`, `agent`,
`agent_public`, as does the message of `validateRequiredFlags`. -/
def dcos.RoleMaster : String := "master"
/-- Modelled from the spec: see `dcos.RoleMaster`. -/
def dcos.RoleAgent : String := "agent"
/-- Modelled from the spec: see `dcos.RoleMaster`. -/
def dcos.RoleAgentPublic : String := "agent_public"

/-- Everything `cmd` takes from outside the package: package variables set by the flag parser,
and the library functions it calls. The results of the library functions are parameters. -/
structure Env where
  /-- The package variable `healthURLPrefix` (flag `--health-url`). -/
  healthURLPrefix : String
  /-- The function `net.ParseIP`; `none` is the nil IP. -/
  ParseIP : String → Option net.IP
  /-- The method `net.IP.String`. -/
  ipString : net.IP → String
  /-- The error of `client.NewNodeInfo(c, role, forceTLS)`, if any. -/
  NewNodeInfo : String → Bool → Option GoError
  /-- The result of `DetectIP()` on the node info built for `role` and `forceTLS`. -/
  DetectIP : String → Bool → Except GoError net.IP
  /-- The method `(*url.URL).String`. -/
  urlString : URL → String
  /-- The function `http.NewRequest` with a nil body. -/
  NewRequest : String → String → Except GoError Request
  /-- The method `httpClient.Do`. -/
  Do : Request → Except GoError Response
  /-- The function `json.Unmarshal` into a `diagnosticsResponse`. -/
  Unmarshal : String → Except GoError diagnosticsResponse
  /-- The status with which `logrus.Fatalf` and `logrus.Fatal` end the process after logging. -/
  fatalExit : Int

/-! ## Node IP and startup validation (root.go, lines 86-122) -/

/-- `func (cli *CLIConfigFlags) IP(c *http.Client) (net.IP, error)`.
In the branch of a literal that does not parse, the result of `err.Msg(...)` is dropped and the
zero-valued `err` is returned. -/
def CLIConfigFlags.IP (env : Env) (cli : CLIConfigFlags) : Except GoError net.IP × List Event :=
  if cli.NodeIPStr ≠ "" then
    match env.ParseIP cli.NodeIPStr with
    | none =>
      let err := ErrInvalidConfig.zero
      let _dropped := err.Msg ("NodeIPStr has invalid IP address: " ++ cli.NodeIPStr)
      (Except.error (GoError.invalidConfig err), [])
    | some ip => (Except.ok ip, [])
  else
    match env.NewNodeInfo cli.Role cli.ForceTLS with
    | some err => (Except.error err, [Event.NewNodeInfo cli.Role cli.ForceTLS])
    | none =>
      (env.DetectIP cli.Role cli.ForceTLS,
        [Event.NewNodeInfo cli.Role cli.ForceTLS, Event.DetectIP cli.Role cli.ForceTLS])

/-- `func (cli *CLIConfigFlags) validateRequiredFlags(c *http.Client) error`. -/
def CLIConfigFlags.validateRequiredFlags (env : Env) (cli : CLIConfigFlags) :
    Option GoError × List Event :=
  if cli.Role ≠ dcos.RoleMaster ∧ cli.Role ≠ dcos.RoleAgent ∧ cli.Role ≠ dcos.RoleAgentPublic then
    let err := ErrInvalidConfig.zero
    (some (err.Msg ("--role must be one of master, agent, agent_public: " ++ cli.Role)), [])
  else
    match cli.IP env with
    | (Except.error err, evs) =>
      let e := ErrInvalidConfig.zero
      (some (e.Msg ("unable to get node's IP. Make sure to use --detect-ip or --node-ip option. "
        ++ err.Error)), evs)
    | (Except.ok ip, evs) =>
      (none, evs ++ [Event.Debugf ("using node's IP address " ++ env.ipString ip)])

/-! ## Endpoint resolution (components.go, lines 33-44 and 149-185) -/

def dcosDiagnosticsMasterHTTPPort : Int := 1050
def adminrouterMasterHTTPSPort : Int := 443
def adminrouterAgentHTTPPort : Int := 61001
def adminrouterAgentHTTPSPort : Int := 61002

/-- A Go map literal, as the list of its entries. -/
abbrev GoMap (κ ν : Type) := List (κ × ν)

/-- The index expression `v, ok := m[k]`; `none` stands for `ok == false`. -/
def GoMap.index {κ ν : Type} [DecidableEq κ] : GoMap κ ν → κ → Option ν
  | [], _ => none
  | (k', v) :: rest, k => if k' = k then some v else GoMap.index rest k

/-- The local `portsMap` of `getHealthURL`. -/
def portsMap : GoMap String (GoMap Bool Int) :=
  [ (dcos.RoleMaster, [(true, adminrouterMasterHTTPSPort), (false, dcosDiagnosticsMasterHTTPPort)]),
    (dcos.RoleAgent, [(true, adminrouterAgentHTTPSPort), (false, adminrouterAgentHTTPPort)]),
    (dcos.RoleAgentPublic, [(true, adminrouterAgentHTTPSPort), (false, adminrouterAgentHTTPPort)]) ]

/-- The lookup `port, ok := portsMap[cfg.Role][cfg.ForceTLS]`: indexing the outer map with an
absent role gives the nil inner map, in which every lookup fails. -/
def portsMap.lookup (role : String) (forceTLS : Bool) : Option Int :=
  GoMap.index ((GoMap.index portsMap role).getD []) forceTLS

/-- The function `net.JoinHostPort`: a host containing a colon is put in brackets. -/
def net.JoinHostPort (host port : String) : String :=
  if ':' ∈ host.data then "[" ++ host ++ "]:" ++ port else host ++ ":" ++ port

/-- The function `strconv.Itoa`. -/
def strconv.Itoa (i : Int) : String := toString i

/-- The verb `%v` of `fmt` applied to a bool. -/
def fmt.bool (b : Bool) : String := if b then "true" else "false"

/-- The struct `ComponentCheck`. -/
structure ComponentCheck where
  Name : String
  deriving DecidableEq, Repr

/-- `func (c *ComponentCheck) getHealthURL(path string, cfg *CLIConfigFlags) (*url.URL, error)`. -/
def ComponentCheck.getHealthURL (env : Env) (_c : ComponentCheck) (path : String)
    (cfg : CLIConfigFlags) : Except GoError URL × List Event :=
  match portsMap.lookup cfg.Role cfg.ForceTLS with
  | none =>
    (Except.error (GoError.errorf
      ("invalid role " ++ cfg.Role ++ ", forceTLS: " ++ fmt.bool cfg.ForceTLS)), [])
  | some port =>
    let scheme := if cfg.ForceTLS then "https" else "http"
    match cfg.IP env with
    | (Except.error err, evs) => (Except.error err, evs)
    | (Except.ok ip, evs) =>
      (Except.ok
        { Scheme := scheme
          Host := net.JoinHostPort (env.ipString ip) (strconv.Itoa port)
          Path := path }, evs)

/-! ## The components check (components.go, lines 104-147) -/

/-- What `Run` of a check returns: `(string, int, error)`. -/
structure CheckResult where
  output : String
  retCode : Int
  err : Option GoError
  deriving DecidableEq, Repr

/-- The last two lines of `Run`: evaluate the decoded response and join the complaints. -/
def ComponentCheck.report (dr : diagnosticsResponse) : CheckResult :=
  let (errorList, retCode) := dr.checkHealth
  ⟨strings.Join errorList ", ", retCode, none⟩

/-- `func (c *ComponentCheck) Run(ctx context.Context, cfg *CLIConfigFlags) (string, int, error)`.
The context argument is not used by the body. -/
def ComponentCheck.Run (env : Env) (c : ComponentCheck) (cfg : CLIConfigFlags) :
    CheckResult × List Event :=
  match c.getHealthURL env env.healthURLPrefix cfg with
  | (Except.error err, evs) => (⟨"", 0, some err⟩, evs)
  | (Except.ok url, evs) =>
    let evs := evs ++ [Event.Infof ("GET " ++ env.urlString url)]
    match env.NewRequest "GET" (env.urlString url) with
    | Except.error err =>
      (⟨"", statusUnknown,
        some (GoError.errorf ("unable to create a new HTTP request: " ++ err.Error))⟩, evs)
    | Except.ok req =>
      let evs := evs ++ [Event.Do req]
      match env.Do req with
      | Except.error err =>
        (⟨"", statusUnknown, some (GoError.errorf
          ("unable to GET " ++ env.healthURLPrefix ++ ": " ++ err.Error))⟩, evs)
      | Except.ok resp =>
        match resp.Body with
        | Except.error err =>
          (⟨"", statusUnknown,
            some (GoError.errorf ("unable to read response body: " ++ err.Error))⟩, evs)
        | Except.ok body =>
          match env.Unmarshal body with
          | Except.error err =>
            (⟨"", statusUnknown, some (GoError.errorf
              ("unable to unmarshal diagnostics response: " ++ err.Error))⟩, evs)
          | Except.ok dr => (ComponentCheck.report dr, evs)

/-- `func (c *ComponentCheck) ID() string`. -/
def ComponentCheck.ID (c : ComponentCheck) : String := c.Name

/-! ## The dispatchers (root.go, lines 189-214; checks.go, lines 18-37) -/

/-- The interface `DCOSChecker`. -/
structure DCOSChecker where
  ID : String
  Run : CLIConfigFlags → CheckResult × List Event

/-- A `*ComponentCheck` as a `DCOSChecker`. -/
def ComponentCheck.toChecker (env : Env) (c : ComponentCheck) : DCOSChecker :=
  { ID := c.ID, Run := c.Run env }

/-- How the process ended: what it wrote to standard output, the outside calls and log lines
it made, the identities of the checks whose `Run` was called, the message given to
`logrus.Fatalf` when the process ended there, and the exit status. -/
structure Exit where
  stdout : String
  events : List Event
  ran : List String
  fatal : Option String
  code : Int
  deriving DecidableEq, Repr

/-- The loop of the list `RunCheck` and the `os.Exit(exitCode)` after it, from the state reached
so far: `logrus.Fatalf` ends the process inside the loop. -/
def RunCheck.loop (env : Env) (cfg : CLIConfigFlags) :
    List DCOSChecker → Int → String → List Event → List String → Exit
  | [], exitCode, out, evs, ran => ⟨out, evs, ran, none, exitCode⟩
  | check :: rest, exitCode, out, evs, ran =>
    match check.Run cfg with
    | (⟨_, _, some err⟩, evs') =>
      ⟨out, evs ++ evs', ran ++ [check.ID],
        some ("Error executing " ++ check.ID ++ ": " ++ err.Error), env.fatalExit⟩
    | (⟨output, retCode, none⟩, evs') =>
      let exitCode := if retCode ≠ statusOK then statusFailure else exitCode
      let out := if output ≠ "" then out ++ ("[" ++ check.ID ++ "]: " ++ output ++ "\n") else out
      RunCheck.loop env cfg rest exitCode out (evs ++ evs') (ran ++ [check.ID])

/-- `func RunCheck(checks []DCOSChecker)` of root.go, run to the end of the process. -/
def RunCheck (env : Env) (cfg : CLIConfigFlags) (checks : List DCOSChecker) : Exit :=
  RunCheck.loop env cfg checks statusOK "" [] []

/-- `func RunCheck(check DCOSChecker)` of checks.go, run to the end of the process. -/
def checks.RunCheck (env : Env) (cfg : CLIConfigFlags) (check : DCOSChecker) : Exit :=
  match check.Run cfg with
  | (⟨_, _, some err⟩, evs) =>
    ⟨"", evs, [check.ID], some ("Error executing " ++ check.ID ++ ": " ++ err.Error),
      env.fatalExit⟩
  | (⟨output, retCode, none⟩, evs) =>
    ⟨if output ≠ "" then output ++ "\n" else "", evs, [check.ID], none, retCode⟩

/-! ## What the spec says, in its own words -/

/-- The complaints of the spec (section 4.5): for each unit record whose health is not 0, the
string `component <name> has health status <health>`, in the order of the response. -/
def spec.complaints (d : diagnosticsResponse) : List String :=
  (d.Units.filter (fun u => u.Health ≠ 0)).map
    (fun u => "component " ++ u.Name ++ " has health status " ++ toString u.Health)

/-- The port matrix of the spec (section 4.2). -/
def spec.portMatrix (role : String) (forceTLS : Bool) : Int :=
  if role = "master" then (if forceTLS then 443 else 1050)
  else (if forceTLS then 61002 else 61001)

/-! ## Concrete worlds for the examples -/

/-- The exit status of `logrus.Fatalf` and `logrus.Fatal`: they log the entry and then call the
exit function of the logger with status 1. -/
def logrus.exitStatus : Int := 1

/-- An example world: literals `10.0.0.5` and `::1` parse, the detector finds `10.0.0.9`, the
diagnostics service answers, and the answer decodes to `dr`. -/
def exampleEnv (dr : diagnosticsResponse) : Env where
  healthURLPrefix := "/system/health/v1"
  ParseIP := fun s =>
    if s = "10.0.0.5" then some [10, 0, 0, 5]
    else if s = "::1" then some [0, 0, 0, 0, 0, 0, 0, 0, 0, 0, 0, 0, 0, 0, 0, 1]
    else none
  ipString := fun ip =>
    if ip = [10, 0, 0, 5] then "10.0.0.5" else if ip = [10, 0, 0, 9] then "10.0.0.9" else "::1"
  NewNodeInfo := fun _ _ => none
  DetectIP := fun _ _ => Except.ok [10, 0, 0, 9]
  urlString := fun u => u.Scheme ++ "://" ++ u.Host ++ u.Path
  NewRequest := fun m u => Except.ok ⟨m, u⟩
  Do := fun _ => Except.ok ⟨Except.ok "units"⟩
  Unmarshal := fun _ => Except.ok dr
  fatalExit := logrus.exitStatus

/-- The world of `exampleEnv` with a detector that fails. -/
def noDetectorEnv : Env :=
  { exampleEnv ⟨[]⟩ with DetectIP := fun _ _ => Except.error (GoError.foreign "exit status 127") }

/-- The world of `exampleEnv` with a diagnostics service that refuses the connection. -/
def refusedEnv : Env :=
  { exampleEnv ⟨[]⟩ with Do := fun _ => Except.error (GoError.foreign "connection refused") }

/-- An example configuration: the given role, TLS preference and node IP literal. -/
def exampleCfg (role : String) (forceTLS : Bool) (nodeIP : String) : CLIConfigFlags :=
  { CACert := "", Verbose := false, ForceTLS := forceTLS, IAMConfig := "", Role := role,
    DetectIP := "/opt/mesosphere/bin/detect_ip", NodeIPStr := nodeIP }

/-- A unit record with the given name and health. -/
def exampleUnit (name : String) (health : Int) : diagnosticsUnit :=
  { ID := "", Health := health, Output := "", Description := "", Help := "", Name := name }

/-- The check that the `components` subcommand runs. -/
def componentsCheck : ComponentCheck := ⟨"DC/OS components health check"⟩

/-! ## Address families and the output of a run -/

/-- The method `net.IP.To4`: a 4-byte address is returned as it is, a 16-byte address with the
prefix of an IPv4-mapped address gives its last four bytes, anything else gives nil (`none`). -/
def net.IP.To4 (ip : net.IP) : Option net.IP :=
  if ip.length = 4 then some ip
  else if ip.length = 16 ∧ (ip.take 10).all (fun b => b == 0) = true
      ∧ ip.get? 10 = some 255 ∧ ip.get? 11 = some 255 then some (ip.drop 12)
  else none

/-- An IPv4 address, as Go tells it: `To4` is not nil. -/
def net.IP.isIPv4 (ip : net.IP) : Prop := net.IP.To4 ip ≠ none

/-- An IPv6 address, as Go tells it: sixteen bytes for which `To4` is nil. -/
def net.IP.isIPv6 (ip : net.IP) : Prop := ip.length = 16 ∧ net.IP.To4 ip = none

/-- The line of the spec (section 4.1) for one check: `[<identity>]: <message>` and a newline. -/
def spec.line (identity message : String) : String :=
  "[" ++ identity ++ "]: " ++ message ++ "\n"

/-- The standard output of the spec for a run without errors: the lines of the checks whose
message is not empty, concatenated in the order of the checks. -/
def spec.stdout (cfg : CLIConfigFlags) (checks : List DCOSChecker) : String :=
  String.join ((checks.filter (fun c => decide ((c.Run cfg).1.output ≠ ""))).map
    (fun c => spec.line c.ID (c.Run cfg).1.output))

/-- The exit status of the spec for a run without errors, from the code of one check: OK for
OK, FAILURE for every other code. -/
def spec.collapse (retCode : Int) : Int := if retCode = 0 then 0 else 2

/-! ## Lemmas on the health evaluation -/

theorem checkHealth_foldl (units : List diagnosticsUnit) (acc : List String) :
    units.foldl checkHealth.step acc
      = acc ++ (units.filter (fun u => u.Health ≠ 0)).map
          (fun u => "component " ++ u.Name ++ " has health status " ++ toString u.Health) := by
  induction units generalizing acc with
  | nil => simp
  | cons u us ih =>
    rw [List.foldl_cons, ih]
    by_cases h : u.Health = 0
    · simp [checkHealth.step, statusOK, h]
    · simp [checkHealth.step, statusOK, h, complaint]

theorem checkHealth_fst (d : diagnosticsResponse) : d.checkHealth.1 = spec.complaints d := by
  simp [diagnosticsResponse.checkHealth, checkHealth_foldl, spec.complaints]

theorem checkHealth_snd (d : diagnosticsResponse) :
    d.checkHealth.2 = if (spec.complaints d).length > 0 then statusFailure else statusOK := by
  simp [diagnosticsResponse.checkHealth, checkHealth_foldl, spec.complaints]

theorem complaints_eq_nil_iff (d : diagnosticsResponse) :
    spec.complaints d = [] ↔ ∀ u ∈ d.Units, u.Health = 0 := by
  simp [spec.complaints, List.filter_eq_nil_iff]

theorem intercalate_go_eq_foldl (sep : String) (l : List String) (acc : String) :
    String.intercalate.go acc sep l = l.foldl (fun b s => b ++ sep ++ s) acc := by
  induction l generalizing acc with
  | nil => rfl
  | cons a as ih => simp [String.intercalate.go, ih]

theorem Join_eq_intercalate (l : List String) (sep : String) :
    strings.Join l sep = sep.intercalate l := by
  cases l with
  | nil => rfl
  | cons a as => simp [strings.Join, String.intercalate, intercalate_go_eq_foldl]

/-- When every collaborator succeeds and the body decodes to `dr`, `Run` returns the report
on `dr`. -/
theorem Run_of_decoded (env : Env) (c : ComponentCheck) (cfg : CLIConfigFlags) (url : URL)
    (evs : List Event) (req : Request) (resp : Response) (body : String)
    (dr : diagnosticsResponse)
    (hurl : c.getHealthURL env env.healthURLPrefix cfg = (Except.ok url, evs))
    (hreq : env.NewRequest "GET" (env.urlString url) = Except.ok req)
    (hdo : env.Do req = Except.ok resp) (hbody : resp.Body = Except.ok body)
    (hdec : env.Unmarshal body = Except.ok dr) :
    (c.Run env cfg).1 = ComponentCheck.report dr := by
  simp [ComponentCheck.Run, hurl, hreq, hdo, hbody, hdec]

/-! ## C1, C2: health evaluation -/

/-- C1: for a diagnostics response with at least one unit whose health is not 0, `checkHealth`
returns the code FAILURE (2) and the complaints of exactly the units with non-zero health, one
for each such unit and in the order of the response; the report built from it carries these
complaints joined by `", "`, and that is what `Run` returns whenever the request succeeds and
its body decodes to this response. -/
theorem C1_unhealthy_report (d : diagnosticsResponse) (h : ∃ u ∈ d.Units, u.Health ≠ 0) :
    d.checkHealth.2 = statusFailure ∧ statusFailure = 2 ∧
    d.checkHealth.1 = spec.complaints d ∧
    ComponentCheck.report d = ⟨", ".intercalate (spec.complaints d), statusFailure, none⟩ ∧
    ∀ (env : Env) (c : ComponentCheck) (cfg : CLIConfigFlags) (url : URL) (evs : List Event)
      (req : Request) (resp : Response) (body : String),
      c.getHealthURL env env.healthURLPrefix cfg = (Except.ok url, evs) →
      env.NewRequest "GET" (env.urlString url) = Except.ok req →
      env.Do req = Except.ok resp → resp.Body = Except.ok body →
      env.Unmarshal body = Except.ok d →
      (c.Run env cfg).1 = ⟨", ".intercalate (spec.complaints d), statusFailure, none⟩ := by
  have hne : spec.complaints d ≠ [] := by
    rw [Ne, complaints_eq_nil_iff]
    obtain ⟨u, hu, hh⟩ := h
    exact fun hall => hh (hall u hu)
  have hcode : d.checkHealth.2 = statusFailure := by
    rw [checkHealth_snd, if_pos (List.length_pos.mpr hne)]
  have hrep : ComponentCheck.report d
      = ⟨", ".intercalate (spec.complaints d), statusFailure, none⟩ := by
    have h1 := checkHealth_fst d
    simp only [ComponentCheck.report, Join_eq_intercalate]
    rw [h1, hcode]
  refine ⟨hcode, rfl, checkHealth_fst d, hrep, ?_⟩
  intro env c cfg url evs req resp body hurl hreq hdo hbody hdec
  rw [Run_of_decoded env c cfg url evs req resp body d hurl hreq hdo hbody hdec, hrep]

/-- C1 on the third scenario of the spec: units x (health 2), y (health 0), z (health 3). -/
theorem C1_unhealthy_report_witness :
    (∃ u ∈ [exampleUnit "x" 2, exampleUnit "y" 0, exampleUnit "z" 3], u.Health ≠ 0) ∧
    (componentsCheck.Run
        (exampleEnv ⟨[exampleUnit "x" 2, exampleUnit "y" 0, exampleUnit "z" 3]⟩)
        (exampleCfg "agent" false "")).1
      = ⟨"component x has health status 2, component z has health status 3", 2, none⟩ := by
  have hex : ∃ u ∈ [exampleUnit "x" 2, exampleUnit "y" 0, exampleUnit "z" 3], u.Health ≠ 0 :=
    ⟨exampleUnit "x" 2, by simp, by decide⟩
  refine ⟨hex, ?_⟩
  have h := (C1_unhealthy_report
    ⟨[exampleUnit "x" 2, exampleUnit "y" 0, exampleUnit "z" 3]⟩ hex).2.2.2.2
    (exampleEnv ⟨[exampleUnit "x" 2, exampleUnit "y" 0, exampleUnit "z" 3]⟩)
    componentsCheck (exampleCfg "agent" false "")
    ⟨"http", "10.0.0.9:61001", "/system/health/v1"⟩
    [Event.NewNodeInfo "agent" false, Event.DetectIP "agent" false]
    ⟨"GET", "http://10.0.0.9:61001/system/health/v1"⟩ ⟨Except.ok "units"⟩ "units"
    (by decide) (by decide) rfl rfl rfl
  rw [h]
  decide

/-- C2: for a diagnostics response in which every unit has health 0, the empty one included,
`checkHealth` returns no complaint and the code OK (0), the report is the empty message with
code OK and no error, and that is what `Run` returns whenever the request succeeds and its body
decodes to this response. -/
theorem C2_healthy_report (d : diagnosticsResponse) (h : ∀ u ∈ d.Units, u.Health = 0) :
    d.checkHealth = ([], statusOK) ∧ statusOK = 0 ∧
    ComponentCheck.report d = ⟨"", statusOK, none⟩ ∧
    ComponentCheck.report ⟨[]⟩ = ⟨"", statusOK, none⟩ ∧
    ∀ (env : Env) (c : ComponentCheck) (cfg : CLIConfigFlags) (url : URL) (evs : List Event)
      (req : Request) (resp : Response) (body : String),
      c.getHealthURL env env.healthURLPrefix cfg = (Except.ok url, evs) →
      env.NewRequest "GET" (env.urlString url) = Except.ok req →
      env.Do req = Except.ok resp → resp.Body = Except.ok body →
      env.Unmarshal body = Except.ok d →
      (c.Run env cfg).1 = ⟨"", statusOK, none⟩ := by
  have hnil : spec.complaints d = [] := (complaints_eq_nil_iff d).mpr h
  have hch : d.checkHealth = ([], statusOK) := by
    apply Prod.ext
    · rw [checkHealth_fst, hnil]
    · rw [checkHealth_snd, hnil]; rfl
  have hrep : ComponentCheck.report d = ⟨"", statusOK, none⟩ := by
    simp only [ComponentCheck.report, hch, strings.Join]
  refine ⟨hch, rfl, hrep, rfl, ?_⟩
  intro env c cfg url evs req resp body hurl hreq hdo hbody hdec
  rw [Run_of_decoded env c cfg url evs req resp body d hurl hreq hdo hbody hdec, hrep]

/-- C2 on the first scenario of the spec: units a and b, both with health 0, on a master
without TLS at 10.0.0.5. -/
theorem C2_healthy_report_witness :
    (∀ u ∈ [exampleUnit "a" 0, exampleUnit "b" 0], u.Health = 0) ∧
    (componentsCheck.Run (exampleEnv ⟨[exampleUnit "a" 0, exampleUnit "b" 0]⟩)
        (exampleCfg "master" false "10.0.0.5")).1 = ⟨"", 0, none⟩ := by
  have hall : ∀ u ∈ [exampleUnit "a" 0, exampleUnit "b" 0], u.Health = 0 := by decide
  exact ⟨hall, (C2_healthy_report ⟨[exampleUnit "a" 0, exampleUnit "b" 0]⟩ hall).2.2.2.2
    (exampleEnv ⟨[exampleUnit "a" 0, exampleUnit "b" 0]⟩)
    componentsCheck (exampleCfg "master" false "10.0.0.5")
    ⟨"http", "10.0.0.5:1050", "/system/health/v1"⟩ []
    ⟨"GET", "http://10.0.0.5:1050/system/health/v1"⟩ ⟨Except.ok "units"⟩ "units"
    (by decide) (by decide) rfl rfl rfl⟩

/-! ## C3: the port matrix and the scheme -/

theorem portsMap_lookup_valid (role : String) (forceTLS : Bool)
    (hrole : role = "master" ∨ role = "agent" ∨ role = "agent_public") :
    portsMap.lookup role forceTLS = some (spec.portMatrix role forceTLS) := by
  rcases hrole with h | h | h <;> subst h <;> cases forceTLS <;> decide

/-- C3: for a role among master, agent and agent_public and either value of force_tls, when the
node IP resolves to `ip`, `getHealthURL` returns a URL whose host is `ip` joined with the port of
the matrix (1050 and 443 for a master, 61001 and 61002 for an agent or a public agent, without
and with TLS), and whose scheme is https with force_tls and http without. -/
theorem C3_getHealthURL_matrix (env : Env) (c : ComponentCheck) (path : String)
    (cfg : CLIConfigFlags) (ip : net.IP) (evs : List Event)
    (hrole : cfg.Role = "master" ∨ cfg.Role = "agent" ∨ cfg.Role = "agent_public")
    (hip : cfg.IP env = (Except.ok ip, evs)) :
    ∃ url : URL, ∃ port : Int,
      c.getHealthURL env path cfg = (Except.ok url, evs) ∧
      url.Host = net.JoinHostPort (env.ipString ip) (strconv.Itoa port) ∧
      (cfg.Role = "master" ∧ cfg.ForceTLS = false → port = 1050) ∧
      (cfg.Role = "master" ∧ cfg.ForceTLS = true → port = 443) ∧
      (cfg.Role ≠ "master" ∧ cfg.ForceTLS = false → port = 61001) ∧
      (cfg.Role ≠ "master" ∧ cfg.ForceTLS = true → port = 61002) ∧
      (cfg.ForceTLS = true → url.Scheme = "https") ∧
      (cfg.ForceTLS = false → url.Scheme = "http") := by
  refine ⟨⟨if cfg.ForceTLS then "https" else "http",
    net.JoinHostPort (env.ipString ip) (strconv.Itoa (spec.portMatrix cfg.Role cfg.ForceTLS)),
    path⟩, spec.portMatrix cfg.Role cfg.ForceTLS, ?_, rfl, ?_, ?_, ?_, ?_, ?_, ?_⟩
  · simp [ComponentCheck.getHealthURL, portsMap_lookup_valid cfg.Role cfg.ForceTLS hrole, hip]
  · rintro ⟨h1, h2⟩; simp [spec.portMatrix, h1, h2]
  · rintro ⟨h1, h2⟩; simp [spec.portMatrix, h1, h2]
  · rintro ⟨h1, h2⟩; simp [spec.portMatrix, h1, h2]
  · rintro ⟨h1, h2⟩; simp [spec.portMatrix, h1, h2]
  · intro h; simp [h]
  · intro h; simp [h]

/-- C3 on the second scenario of the spec: a master with TLS whose node IP is 10.0.0.5. -/
theorem C3_getHealthURL_matrix_witness :
    ∃ url : URL, ∃ port : Int,
      componentsCheck.getHealthURL (exampleEnv ⟨[]⟩) "/system/health/v1"
        (exampleCfg "master" true "10.0.0.5") = (Except.ok url, []) ∧
      url.Host = net.JoinHostPort "10.0.0.5" (strconv.Itoa port) ∧
      port = 443 ∧ url.Scheme = "https" := by
  obtain ⟨url, port, h1, h2, _, h4, _, _, h7, _⟩ :=
    C3_getHealthURL_matrix (exampleEnv ⟨[]⟩) componentsCheck "/system/health/v1"
      (exampleCfg "master" true "10.0.0.5") [10, 0, 0, 5] [] (Or.inl rfl) (by decide)
  exact ⟨url, port, h1, h2, h4 ⟨rfl, rfl⟩, h7 rfl⟩

/-! ## C4: aggregation by the list dispatcher -/

theorem loop_no_error (env : Env) (cfg : CLIConfigFlags) (checks : List DCOSChecker)
    (exitCode : Int) (out : String) (evs : List Event) (ran : List String)
    (hok : ∀ c ∈ checks, (c.Run cfg).1.err = none) :
    (RunCheck.loop env cfg checks exitCode out evs ran).code
        = (if ∀ c ∈ checks, (c.Run cfg).1.retCode = statusOK then exitCode else statusFailure) ∧
    (RunCheck.loop env cfg checks exitCode out evs ran).fatal = none ∧
    (RunCheck.loop env cfg checks exitCode out evs ran).ran = ran ++ checks.map (fun c => c.ID) := by
  induction checks generalizing exitCode out evs ran with
  | nil => simp [RunCheck.loop]
  | cons c cs ih =>
    have hc : (c.Run cfg).1.err = none := hok c (List.mem_cons_self _ _)
    have hcs : ∀ c' ∈ cs, (c'.Run cfg).1.err = none :=
      fun c' h' => hok c' (List.mem_cons_of_mem _ h')
    rcases hrun : c.Run cfg with ⟨⟨output, retCode, err⟩, evs'⟩
    rw [hrun] at hc
    simp only at hc
    subst hc
    simp only [RunCheck.loop, hrun]
    obtain ⟨h1, h2, h3⟩ := ih
      (if retCode ≠ statusOK then statusFailure else exitCode)
      (if output ≠ "" then out ++ ("[" ++ c.ID ++ "]: " ++ output ++ "\n") else out)
      (evs ++ evs') (ran ++ [c.ID]) hcs
    refine ⟨?_, h2, ?_⟩
    · rw [h1]
      by_cases hr : retCode = statusOK
      · simp [hrun, hr]
      · simp [hrun, hr]
    · rw [h3]; simp

/-- C4: for a non-empty sequence of checks none of which returns an error, the list dispatcher
ends the process through `os.Exit` (not through the fatal log), with OK (0) if and only if every
check returned the code OK, and with FAILURE (2) otherwise, whatever the other codes are. -/
theorem C4_RunCheck_aggregate (env : Env) (cfg : CLIConfigFlags) (checks : List DCOSChecker)
    (_hne : checks ≠ []) (hok : ∀ c ∈ checks, (c.Run cfg).1.err = none) :
    (RunCheck env cfg checks).fatal = none ∧
    ((RunCheck env cfg checks).code = 0 ↔ ∀ c ∈ checks, (c.Run cfg).1.retCode = 0) ∧
    ((∃ c ∈ checks, (c.Run cfg).1.retCode ≠ 0) → (RunCheck env cfg checks).code = 2) := by
  obtain ⟨h1, h2, _⟩ := loop_no_error env cfg checks statusOK "" [] [] hok
  refine ⟨h2, ?_, ?_⟩
  · show (RunCheck.loop env cfg checks statusOK "" [] []).code = 0 ↔ _
    rw [h1]
    by_cases hall : ∀ c ∈ checks, (c.Run cfg).1.retCode = statusOK
    · simp only [if_pos hall]; exact ⟨fun _ => hall, fun _ => rfl⟩
    · simp only [if_neg hall]
      exact ⟨fun h => absurd h (by decide), fun h => absurd h hall⟩
  · rintro ⟨c, hc, hne⟩
    show (RunCheck.loop env cfg checks statusOK "" [] []).code = 2
    rw [h1, if_neg (fun hall => hne (hall c hc))]
    rfl

/-- C4 on two checks, the first returning WARNING (1) and the second OK: the exit status
is FAILURE. -/
theorem C4_RunCheck_aggregate_witness :
    (RunCheck (exampleEnv ⟨[]⟩) (exampleCfg "master" false "10.0.0.5")
      [⟨"w", fun _ => (⟨"careful", 1, none⟩, [])⟩,
       (componentsCheck.toChecker (exampleEnv ⟨[]⟩))]).code = 2 :=
  (C4_RunCheck_aggregate (exampleEnv ⟨[]⟩) (exampleCfg "master" false "10.0.0.5")
    [⟨"w", fun _ => (⟨"careful", 1, none⟩, [])⟩, (componentsCheck.toChecker (exampleEnv ⟨[]⟩))]
    (by simp) (by
      intro c hc
      simp only [List.mem_cons, List.mem_singleton, List.not_mem_nil, or_false] at hc
      rcases hc with h | h <;> subst h <;> decide)).2.2
    ⟨⟨"w", fun _ => (⟨"careful", 1, none⟩, [])⟩, by simp, by decide⟩

/-! ## C5: the code that `Run` returns with an error -/

theorem Run_of_resolution_error (env : Env) (c : ComponentCheck) (cfg : CLIConfigFlags)
    (err : GoError) (evs : List Event)
    (hurl : c.getHealthURL env env.healthURLPrefix cfg = (Except.error err, evs)) :
    c.Run env cfg = (⟨"", 0, some err⟩, evs) := by
  simp [ComponentCheck.Run, hurl]

theorem Run_error_after_resolution (env : Env) (c : ComponentCheck) (cfg : CLIConfigFlags)
    (url : URL) (evs : List Event) (err : GoError)
    (hurl : c.getHealthURL env env.healthURLPrefix cfg = (Except.ok url, evs))
    (herr : (c.Run env cfg).1.err = some err) :
    (c.Run env cfg).1.retCode = statusUnknown := by
  revert herr
  simp only [ComponentCheck.Run, hurl]
  cases env.NewRequest "GET" (env.urlString url) with
  | error e => simp
  | ok req =>
    simp only
    cases env.Do req with
    | error e => simp
    | ok resp =>
      simp only
      cases resp.Body with
      | error e => simp
      | ok body =>
        simp only
        cases env.Unmarshal body with
        | error e => simp
        | ok dr => simp [ComponentCheck.report]

/-- C5: when endpoint resolution fails, `Run` returns the error with the code 0 (OK), not
UNKNOWN (3): so it does for the role `worker`, where the port lookup fails, and for a master
without a node IP literal whose detector fails. -/
theorem C5_Run_resolution_error_code :
    (componentsCheck.Run (exampleEnv ⟨[]⟩) (exampleCfg "worker" false "")).1
      = ⟨"", 0, some (GoError.errorf "invalid role worker, forceTLS: false")⟩ ∧
    (componentsCheck.Run noDetectorEnv (exampleCfg "master" false "")).1
      = ⟨"", 0, some (GoError.foreign "exit status 127")⟩ ∧
    (0 : Int) = statusOK ∧ (0 : Int) ≠ statusUnknown := by
  decide

/-! ## C6: an error ends the run of the list dispatcher -/

theorem loop_first_error (env : Env) (cfg : CLIConfigFlags) (pre : List DCOSChecker)
    (ck : DCOSChecker) (post : List DCOSChecker) (err : GoError)
    (exitCode : Int) (out : String) (evs : List Event) (ran : List String)
    (hpre : ∀ c ∈ pre, (c.Run cfg).1.err = none) (hck : (ck.Run cfg).1.err = some err) :
    RunCheck.loop env cfg (pre ++ ck :: post) exitCode out evs ran
      = { RunCheck.loop env cfg pre exitCode out evs ran with
          events := (RunCheck.loop env cfg pre exitCode out evs ran).events ++ (ck.Run cfg).2
          ran := (RunCheck.loop env cfg pre exitCode out evs ran).ran ++ [ck.ID]
          fatal := some ("Error executing " ++ ck.ID ++ ": " ++ err.Error)
          code := env.fatalExit } := by
  induction pre generalizing exitCode out evs ran with
  | nil =>
    rcases hrun : ck.Run cfg with ⟨⟨output, retCode, e⟩, evs'⟩
    rw [hrun] at hck
    simp only at hck
    subst hck
    simp [RunCheck.loop, hrun]
  | cons c cs ih =>
    have hc : (c.Run cfg).1.err = none := hpre c (List.mem_cons_self _ _)
    have hcs : ∀ c' ∈ cs, (c'.Run cfg).1.err = none :=
      fun c' h' => hpre c' (List.mem_cons_of_mem _ h')
    rcases hrun : c.Run cfg with ⟨⟨output, retCode, e⟩, evs'⟩
    rw [hrun] at hc
    simp only at hc
    subst hc
    simp only [List.cons_append, RunCheck.loop, hrun]
    exact ih _ _ _ _ hcs

/-- C6, as amended: if check k is the first to return an error, the list dispatcher ends the
process in `logrus.Fatalf`, with the exit status of the logger and the message naming the check
and the error; the checks before k have run and printed as they do without k, check k has run,
and no check after k is run: the outcome does not depend on them. -/
theorem C6_RunCheck_fail_fast (env : Env) (cfg : CLIConfigFlags) (pre : List DCOSChecker)
    (ck : DCOSChecker) (post : List DCOSChecker) (err : GoError)
    (hpre : ∀ c ∈ pre, (c.Run cfg).1.err = none) (hck : (ck.Run cfg).1.err = some err) :
    (RunCheck env cfg (pre ++ ck :: post)).code = env.fatalExit ∧
    (RunCheck env cfg (pre ++ ck :: post)).fatal
      = some ("Error executing " ++ ck.ID ++ ": " ++ err.Error) ∧
    (RunCheck env cfg (pre ++ ck :: post)).ran = (pre ++ [ck]).map (fun c => c.ID) ∧
    (RunCheck env cfg (pre ++ ck :: post)).stdout = (RunCheck env cfg pre).stdout ∧
    ∀ post' : List DCOSChecker,
      RunCheck env cfg (pre ++ ck :: post') = RunCheck env cfg (pre ++ ck :: post) := by
  have h := fun p => loop_first_error env cfg pre ck p err statusOK "" [] [] hpre hck
  have hran := (loop_no_error env cfg pre statusOK "" [] [] hpre).2.2
  refine ⟨?_, ?_, ?_, ?_, ?_⟩
  · simp only [RunCheck, h post]
  · simp only [RunCheck, h post]
  · simp only [RunCheck, h post, hran]; simp
  · simp only [RunCheck, h post]
  · intro post'
    simp only [RunCheck, h post, h post']

/-- C6, as amended, on the fourth scenario of the spec: the diagnostics service refuses the
connection, and a second check is never run. -/
theorem C6_RunCheck_fail_fast_witness :
    (RunCheck refusedEnv (exampleCfg "agent_public" true "")
      ([] ++ componentsCheck.toChecker refusedEnv ::
        [⟨"second", fun _ => (⟨"", 0, none⟩, [])⟩])).ran = ["DC/OS components health check"] :=
  (C6_RunCheck_fail_fast refusedEnv (exampleCfg "agent_public" true "") []
    (componentsCheck.toChecker refusedEnv) [⟨"second", fun _ => (⟨"", 0, none⟩, [])⟩]
    (GoError.errorf "unable to GET /system/health/v1: connection refused")
    (by simp) (by decide)).2.2.1

/-- C6 as stated fails: with logrus as the logger, a run in which the only check returns an
error (a refused connection) exits with status 1, not with UNKNOWN (3). -/
theorem C6_RunCheck_fail_fast_counterexample :
    (componentsCheck.Run refusedEnv (exampleCfg "agent_public" true "")).1.err
      = some (GoError.errorf "unable to GET /system/health/v1: connection refused") ∧
    (RunCheck refusedEnv (exampleCfg "agent_public" true "")
      [componentsCheck.toChecker refusedEnv]).code = 1 ∧
    (RunCheck refusedEnv (exampleCfg "agent_public" true "")
      [componentsCheck.toChecker refusedEnv]).code ≠ statusUnknown := by
  decide

/-! ## C7: roles outside the port map -/

theorem GoMap_index_ports (role : String)
    (hrole : role ≠ "master" ∧ role ≠ "agent" ∧ role ≠ "agent_public") :
    GoMap.index portsMap role = none := by
  obtain ⟨h1, h2, h3⟩ := hrole
  simp [portsMap, GoMap.index, dcos.RoleMaster, dcos.RoleAgent, dcos.RoleAgentPublic,
    Ne.symm h1, Ne.symm h2, Ne.symm h3]

/-- C7, as amended: for a role outside master, agent and agent_public and either value of
force_tls, `getHealthURL` returns no URL, makes no call outside the process, and fails with an
error built by `fmt.Errorf`, which is not an `ErrInvalidConfig`, whose message is
`invalid role <role>, forceTLS: <force_tls>`. -/
theorem C7_getHealthURL_invalid_role (env : Env) (c : ComponentCheck) (path : String)
    (cfg : CLIConfigFlags)
    (hrole : cfg.Role ≠ "master" ∧ cfg.Role ≠ "agent" ∧ cfg.Role ≠ "agent_public") :
    c.getHealthURL env path cfg
      = (Except.error (GoError.errorf
          ("invalid role " ++ cfg.Role ++ ", forceTLS: " ++ (if cfg.ForceTLS then "true" else "false"))),
        []) ∧
    (GoError.errorf
      ("invalid role " ++ cfg.Role ++ ", forceTLS: "
        ++ (if cfg.ForceTLS then "true" else "false"))).isErrInvalidConfig = false := by
  have hl : portsMap.lookup cfg.Role cfg.ForceTLS = none := by
    unfold portsMap.lookup
    rw [GoMap_index_ports cfg.Role hrole]
    rfl
  refine ⟨?_, rfl⟩
  simp [ComponentCheck.getHealthURL, hl, fmt.bool]

/-- C7, as amended, on the role `worker` with TLS. -/
theorem C7_getHealthURL_invalid_role_witness :
    componentsCheck.getHealthURL (exampleEnv ⟨[]⟩) "/system/health/v1"
        (exampleCfg "worker" true "10.0.0.5")
      = (Except.error (GoError.errorf "invalid role worker, forceTLS: true"), []) :=
  (C7_getHealthURL_invalid_role (exampleEnv ⟨[]⟩) componentsCheck "/system/health/v1"
    (exampleCfg "worker" true "10.0.0.5") (by decide)).1

/-- C7 as stated fails: for the role `worker` the error of `getHealthURL` is not an
`ErrInvalidConfig`. -/
theorem C7_getHealthURL_invalid_role_counterexample :
    ¬ ∃ e : ErrInvalidConfig,
      (componentsCheck.getHealthURL (exampleEnv ⟨[]⟩) "/system/health/v1"
        (exampleCfg "worker" false "10.0.0.5")).1 = Except.error (GoError.invalidConfig e) := by
  rintro ⟨e, he⟩
  have h : (componentsCheck.getHealthURL (exampleEnv ⟨[]⟩) "/system/health/v1"
      (exampleCfg "worker" false "10.0.0.5")).1
      = Except.error (GoError.errorf "invalid role worker, forceTLS: false") := by decide
  rw [h] at he
  cases he

/-! ## C8, C9: the node IP literal -/

/-- C8: for a non-empty node IP literal that does not parse, `IP` returns no address and an
`ErrInvalidConfig`, reaching no detector, but the message of the error is empty: the value built
by `err.Msg` with the offending string is dropped. -/
theorem C8_IP_invalid_literal (env : Env) (cli : CLIConfigFlags)
    (hne : cli.NodeIPStr ≠ "") (hparse : env.ParseIP cli.NodeIPStr = none) :
    cli.IP env = (Except.error (GoError.invalidConfig ⟨""⟩), []) ∧
    (GoError.invalidConfig ⟨""⟩).Error = "" := by
  refine ⟨?_, rfl⟩
  simp [CLIConfigFlags.IP, hne, hparse, ErrInvalidConfig.zero]

/-- C8 on the literal `not-an-ip`: the message of the error is empty, so it does not hold the
literal. -/
theorem C8_IP_invalid_literal_witness :
    (exampleCfg "master" false "not-an-ip").IP (exampleEnv ⟨[]⟩)
      = (Except.error (GoError.invalidConfig ⟨""⟩), []) ∧
    (GoError.invalidConfig ⟨""⟩).Error ≠ "NodeIPStr has invalid IP address: not-an-ip" :=
  ⟨(C8_IP_invalid_literal (exampleEnv ⟨[]⟩) (exampleCfg "master" false "not-an-ip")
    (by decide) (by decide)).1, by decide⟩

/-- C9: for a configuration whose node IP literal is not empty and parses, `IP` returns the
parsed address with no error and reaches neither `NewNodeInfo` nor the detector; its result is
the same in every world that parses the literal alike, whatever the detector does there. -/
theorem C9_IP_literal_precedence (env : Env) (cli : CLIConfigFlags) (ip : net.IP)
    (hne : cli.NodeIPStr ≠ "") (hparse : env.ParseIP cli.NodeIPStr = some ip) :
    cli.IP env = (Except.ok ip, []) ∧
    ∀ (newNodeInfo : String → Bool → Option GoError)
      (detectIP : String → Bool → Except GoError net.IP),
      cli.IP { env with NewNodeInfo := newNodeInfo, DetectIP := detectIP } = cli.IP env := by
  refine ⟨?_, ?_⟩
  · simp [CLIConfigFlags.IP, hne, hparse]
  · intro newNodeInfo detectIP
    simp [CLIConfigFlags.IP, hne, hparse]

/-- C9 on the literal `10.0.0.5` in a world whose detector fails. -/
theorem C9_IP_literal_precedence_witness :
    (exampleCfg "agent" false "10.0.0.5").IP noDetectorEnv = (Except.ok [10, 0, 0, 5], []) :=
  (C9_IP_literal_precedence noDetectorEnv (exampleCfg "agent" false "10.0.0.5") [10, 0, 0, 5]
    (by decide) (by decide)).1

/-! ## C10: startup validation -/

/-- C10: `validateRequiredFlags` returns an error if and only if the role is not one of master,
agent and agent_public or the resolution of the node IP fails; for a role outside the three the
error is an `ErrInvalidConfig` whose message ends with the role string, and it is returned with
no call outside the process: no node info, no detector, no HTTP request. -/
theorem C10_validateRequiredFlags (env : Env) (cli : CLIConfigFlags) :
    ((∃ err, (cli.validateRequiredFlags env).1 = some err) ↔
      (¬ (cli.Role = "master" ∨ cli.Role = "agent" ∨ cli.Role = "agent_public") ∨
        ∃ err, (cli.IP env).1 = Except.error err)) ∧
    (¬ (cli.Role = "master" ∨ cli.Role = "agent" ∨ cli.Role = "agent_public") →
      cli.validateRequiredFlags env
        = (some (GoError.invalidConfig
            ⟨"--role must be one of master, agent, agent_public: " ++ cli.Role⟩), [])) := by
  by_cases hrole : cli.Role = "master" ∨ cli.Role = "agent" ∨ cli.Role = "agent_public"
  · have hcond : ¬ (cli.Role ≠ dcos.RoleMaster ∧ cli.Role ≠ dcos.RoleAgent ∧
        cli.Role ≠ dcos.RoleAgentPublic) := by
      simp only [dcos.RoleMaster, dcos.RoleAgent, dcos.RoleAgentPublic]
      tauto
    refine ⟨?_, fun h => absurd hrole h⟩
    rcases hip : cli.IP env with ⟨res, evs⟩
    cases res with
    | error e =>
      simp [CLIConfigFlags.validateRequiredFlags, hcond, hip, ErrInvalidConfig.Msg]
    | ok ip =>
      simp [CLIConfigFlags.validateRequiredFlags, hcond, hip, hrole]
  · have hcond : cli.Role ≠ dcos.RoleMaster ∧ cli.Role ≠ dcos.RoleAgent ∧
        cli.Role ≠ dcos.RoleAgentPublic := by
      simp only [dcos.RoleMaster, dcos.RoleAgent, dcos.RoleAgentPublic]
      tauto
    have hval : cli.validateRequiredFlags env
        = (some (GoError.invalidConfig
            ⟨"--role must be one of master, agent, agent_public: " ++ cli.Role⟩), []) := by
      simp [CLIConfigFlags.validateRequiredFlags, hcond, ErrInvalidConfig.Msg]
    refine ⟨?_, fun _ => hval⟩
    rw [hval]
    exact ⟨fun _ => Or.inl hrole, fun _ => ⟨_, rfl⟩⟩

/-- C10 on the sixth scenario of the spec: the role `worker`. -/
theorem C10_validateRequiredFlags_witness :
    (exampleCfg "worker" false "").validateRequiredFlags (exampleEnv ⟨[]⟩)
      = (some (GoError.invalidConfig
          ⟨"--role must be one of master, agent, agent_public: worker"⟩), []) :=
  (C10_validateRequiredFlags (exampleEnv ⟨[]⟩) (exampleCfg "worker" false "")).2 (by decide)

/-! ## C11: what the list dispatcher prints -/

theorem foldl_append_eq (l : List String) (acc : String) :
    l.foldl (fun r s => r ++ s) acc = acc ++ String.join l := by
  induction l generalizing acc with
  | nil => simp [String.join]
  | cons a as ih =>
    have h1 : String.join (a :: as) = a ++ String.join as := by
      show as.foldl (fun r s => r ++ s) ("" ++ a) = _
      rw [ih, String.empty_append]
    rw [List.foldl_cons, ih, h1, String.append_assoc]

theorem join_cons_eq (a : String) (l : List String) :
    String.join (a :: l) = a ++ String.join l := by
  rw [String.join, List.foldl_cons, foldl_append_eq, String.empty_append]

theorem stdout_cons_silent (cfg : CLIConfigFlags) (c : DCOSChecker) (cs : List DCOSChecker)
    (h : (c.Run cfg).1.output = "") : spec.stdout cfg (c :: cs) = spec.stdout cfg cs := by
  simp [spec.stdout, List.filter_cons, h]

theorem stdout_cons_line (cfg : CLIConfigFlags) (c : DCOSChecker) (cs : List DCOSChecker)
    (h : (c.Run cfg).1.output ≠ "") :
    spec.stdout cfg (c :: cs) = spec.line c.ID (c.Run cfg).1.output ++ spec.stdout cfg cs := by
  simp [spec.stdout, List.filter_cons, h, join_cons_eq]

theorem loop_stdout (env : Env) (cfg : CLIConfigFlags) (checks : List DCOSChecker)
    (exitCode : Int) (out : String) (evs : List Event) (ran : List String)
    (hok : ∀ c ∈ checks, (c.Run cfg).1.err = none) :
    (RunCheck.loop env cfg checks exitCode out evs ran).stdout
      = out ++ spec.stdout cfg checks := by
  induction checks generalizing exitCode out evs ran with
  | nil => simp [RunCheck.loop, spec.stdout, String.join]
  | cons c cs ih =>
    have hc : (c.Run cfg).1.err = none := hok c (List.mem_cons_self _ _)
    have hcs : ∀ c' ∈ cs, (c'.Run cfg).1.err = none :=
      fun c' h' => hok c' (List.mem_cons_of_mem _ h')
    rcases hrun : c.Run cfg with ⟨⟨output, retCode, err⟩, evs'⟩
    rw [hrun] at hc
    simp only at hc
    subst hc
    simp only [RunCheck.loop, hrun]
    rw [ih _ _ _ _ hcs]
    by_cases hout : output = ""
    · have h' : (c.Run cfg).1.output = "" := by rw [hrun]; exact hout
      rw [stdout_cons_silent cfg c cs h']
      simp [hout]
    · have h' : (c.Run cfg).1.output ≠ "" := by rw [hrun]; exact hout
      rw [stdout_cons_line cfg c cs h', hrun]
      simp [hout, spec.line, String.append_assoc]

/-- C11: for a sequence of checks none of which returns an error, the list dispatcher writes to
standard output exactly the lines `[<identity>]: <message>` with their newline of the checks
whose message is not empty, concatenated in the order of the checks, and nothing for a check
whose message is empty, whatever its code. -/
theorem C11_RunCheck_stdout (env : Env) (cfg : CLIConfigFlags) (checks : List DCOSChecker)
    (hok : ∀ c ∈ checks, (c.Run cfg).1.err = none) :
    (RunCheck env cfg checks).stdout
      = String.join ((checks.filter (fun c => decide ((c.Run cfg).1.output ≠ ""))).map
          (fun c => "[" ++ c.ID ++ "]: " ++ (c.Run cfg).1.output ++ "\n")) := by
  have h := loop_stdout env cfg checks statusOK "" [] [] hok
  rw [String.empty_append] at h
  exact h

/-- C11 on three checks: a silent check with code WARNING between two checks with a message. -/
theorem C11_RunCheck_stdout_witness :
    (RunCheck (exampleEnv ⟨[]⟩) (exampleCfg "master" false "10.0.0.5")
      [⟨"a", fun _ => (⟨"first", 2, none⟩, [])⟩, ⟨"b", fun _ => (⟨"", 1, none⟩, [])⟩,
       ⟨"c", fun _ => (⟨"last", 0, none⟩, [])⟩]).stdout = "[a]: first\n[c]: last\n" := by
  rw [C11_RunCheck_stdout (exampleEnv ⟨[]⟩) (exampleCfg "master" false "10.0.0.5")
    [⟨"a", fun _ => (⟨"first", 2, none⟩, [])⟩, ⟨"b", fun _ => (⟨"", 1, none⟩, [])⟩,
     ⟨"c", fun _ => (⟨"last", 0, none⟩, [])⟩]
    (by
      intro c hc
      simp only [List.mem_cons, List.mem_singleton, List.not_mem_nil, or_false] at hc
      rcases hc with h | h | h <;> subst h <;> rfl)]
  decide

/-! ## C12, C13: messages and codes of the components check -/

theorem complaint_length_pos (name : String) (health : Int) :
    0 < ("component " ++ name ++ " has health status " ++ toString health).length := by
  have h : ("component " : String).length = 10 := by decide
  simp only [String.length_append, h]
  omega

theorem Join_foldl_length (sep : String) (es : List String) (b : String) :
    b.length ≤ (es.foldl (fun b s => b ++ sep ++ s) b).length := by
  induction es generalizing b with
  | nil => exact Nat.le_refl _
  | cons e es ih =>
    rw [List.foldl_cons]
    refine Nat.le_trans ?_ (ih (b ++ sep ++ e))
    simp only [String.length_append]
    omega

theorem Join_complaints_ne_empty (d : diagnosticsResponse) (h : spec.complaints d ≠ []) :
    strings.Join (spec.complaints d) ", " ≠ "" := by
  intro hempty
  have hlen : (strings.Join (spec.complaints d) ", ").length = 0 := by rw [hempty]; rfl
  revert h hlen
  unfold spec.complaints
  cases (d.Units.filter (fun u => u.Health ≠ 0)) with
  | nil => intro h; exact absurd rfl h
  | cons u us =>
    intro _ hlen
    simp only [List.map_cons, strings.Join] at hlen
    have h1 := Join_foldl_length ", "
      (us.map (fun u => "component " ++ u.Name ++ " has health status " ++ toString u.Health))
      ("component " ++ u.Name ++ " has health status " ++ toString u.Health)
    have h2 := complaint_length_pos u.Name u.Health
    omega

theorem report_eq (d : diagnosticsResponse) :
    ComponentCheck.report d
      = ⟨strings.Join (spec.complaints d) ", ",
         if (spec.complaints d).length > 0 then statusFailure else statusOK, none⟩ := by
  have h1 := checkHealth_fst d
  have h2 := checkHealth_snd d
  simp only [ComponentCheck.report]
  rw [h1, h2]

theorem report_output_empty_iff (d : diagnosticsResponse) :
    (ComponentCheck.report d).output = "" ↔ (ComponentCheck.report d).retCode = statusOK := by
  rw [report_eq]
  by_cases h : spec.complaints d = []
  · simp [h, strings.Join]
  · have hpos : (spec.complaints d).length > 0 := List.length_pos.mpr h
    simp only [if_pos hpos]
    constructor
    · intro he; exact absurd he (Join_complaints_ne_empty d h)
    · intro he; exact absurd he (by decide)

theorem Run_no_error_is_report (env : Env) (c : ComponentCheck) (cfg : CLIConfigFlags)
    (herr : (c.Run env cfg).1.err = none) :
    ∃ dr, (c.Run env cfg).1 = ComponentCheck.report dr := by
  revert herr
  simp only [ComponentCheck.Run]
  rcases c.getHealthURL env env.healthURLPrefix cfg with ⟨res, evs⟩
  cases res with
  | error e => simp
  | ok url =>
    simp only
    cases env.NewRequest "GET" (env.urlString url) with
    | error e => simp
    | ok req =>
      simp only
      cases env.Do req with
      | error e => simp
      | ok resp =>
        simp only
        cases resp.Body with
        | error e => simp
        | ok body =>
          simp only
          cases env.Unmarshal body with
          | error e => simp
          | ok dr => intro _; exact ⟨dr, rfl⟩

theorem loop_code_zero (env : Env) (cfg : CLIConfigFlags) (checks : List DCOSChecker)
    (exitCode : Int) (out : String) (evs : List Event) (ran : List String)
    (hfatal : env.fatalExit ≠ 0)
    (hcode : (RunCheck.loop env cfg checks exitCode out evs ran).code = 0) :
    exitCode = 0 ∧
      ∀ c ∈ checks, (c.Run cfg).1.err = none ∧ (c.Run cfg).1.retCode = 0 := by
  induction checks generalizing exitCode out evs ran with
  | nil => exact ⟨hcode, fun c hc => absurd hc (List.not_mem_nil c)⟩
  | cons c cs ih =>
    rcases hrun : c.Run cfg with ⟨⟨output, retCode, err⟩, evs'⟩
    cases err with
    | some e =>
      simp only [RunCheck.loop, hrun] at hcode
      exact absurd hcode hfatal
    | none =>
      simp only [RunCheck.loop, hrun] at hcode
      obtain ⟨h1, h2⟩ := ih _ _ _ _ hcode
      have hret : retCode = 0 := by
        by_contra hne
        have : ¬ retCode = statusOK := hne
        simp only [ne_eq, this, not_false_eq_true, if_true] at h1
        exact absurd h1 (by decide)
      have hexit : exitCode = 0 := by
        have : retCode = statusOK := hret
        simpa [this] using h1
      refine ⟨hexit, ?_⟩
      intro c' hc'
      rcases List.mem_cons.mp hc' with h | h
      · subst h; rw [hrun]; exact ⟨rfl, hret⟩
      · exact h2 c' h

/-- C12: the message of the components check is empty if and only if its code is OK, for the
report on any diagnostics response and so for every return of `Run` without an error; hence a
run of the list dispatcher over components checks that exits with 0, the fatal exit status of
the logger not being 0, prints nothing, and a components check that returns FAILURE has a
message that is not empty, for which the dispatcher prints one line `[<identity>]: <message>`. -/
theorem C12_message_empty_iff_OK (d : diagnosticsResponse) :
    ((ComponentCheck.report d).output = "" ↔ (ComponentCheck.report d).retCode = statusOK) ∧
    (∀ (env : Env) (c : ComponentCheck) (cfg : CLIConfigFlags),
      (c.Run env cfg).1.err = none →
      ((c.Run env cfg).1.output = "" ↔ (c.Run env cfg).1.retCode = statusOK)) ∧
    (∀ (env : Env) (cfg : CLIConfigFlags) (checks : List DCOSChecker),
      env.fatalExit ≠ 0 →
      (∀ ck ∈ checks, ∃ (env' : Env) (c : ComponentCheck), ck = c.toChecker env') →
      (RunCheck env cfg checks).code = 0 → (RunCheck env cfg checks).stdout = "") ∧
    (∀ (env env' : Env) (cfg : CLIConfigFlags) (c : ComponentCheck) (msg : String),
      (c.Run env' cfg).1 = ⟨msg, statusFailure, none⟩ →
      msg ≠ "" ∧
      (RunCheck env cfg [c.toChecker env']).stdout = "[" ++ c.ID ++ "]: " ++ msg ++ "\n") := by
  have hrun : ∀ (env : Env) (c : ComponentCheck) (cfg : CLIConfigFlags),
      (c.Run env cfg).1.err = none →
      ((c.Run env cfg).1.output = "" ↔ (c.Run env cfg).1.retCode = statusOK) := by
    intro env c cfg herr
    obtain ⟨dr, hdr⟩ := Run_no_error_is_report env c cfg herr
    rw [hdr]
    exact report_output_empty_iff dr
  refine ⟨report_output_empty_iff d, hrun, ?_, ?_⟩
  · intro env cfg checks hfatal hcomp hcode
    obtain ⟨_, hall⟩ := loop_code_zero env cfg checks statusOK "" [] [] hfatal hcode
    have hok : ∀ c ∈ checks, (c.Run cfg).1.err = none := fun c hc => (hall c hc).1
    have hout := loop_stdout env cfg checks statusOK "" [] [] hok
    rw [String.empty_append] at hout
    show (RunCheck.loop env cfg checks statusOK "" [] []).stdout = ""
    rw [hout]
    have hsilent : ∀ ck ∈ checks, (ck.Run cfg).1.output = "" := by
      intro ck hck
      obtain ⟨env', c, rfl⟩ := hcomp ck hck
      exact (hrun env' c cfg (hall _ hck).1).mpr (hall _ hck).2
    have hfilter : checks.filter (fun c => decide ((c.Run cfg).1.output ≠ "")) = [] := by
      rw [List.filter_eq_nil_iff]
      intro ck hck
      simp [hsilent ck hck]
    unfold spec.stdout
    rw [hfilter]
    rfl
  · intro env env' cfg c msg hres
    have herr : (c.Run env' cfg).1.err = none := by rw [hres]
    have hmsg : msg ≠ "" := by
      intro hempty
      have h := (hrun env' c cfg herr).mp (by rw [hres]; exact hempty)
      rw [hres] at h
      have h2 : statusFailure = statusOK := h
      exact absurd h2 (by decide)
    refine ⟨hmsg, ?_⟩
    have hout := loop_stdout env cfg [c.toChecker env'] statusOK "" [] []
      (by
        intro ck hck
        rw [List.mem_singleton] at hck
        subst hck
        exact herr)
    rw [String.empty_append] at hout
    show (RunCheck.loop env cfg [c.toChecker env'] statusOK "" [] []).stdout = _
    rw [hout]
    have hne : ((c.toChecker env').Run cfg).1.output ≠ "" := by
      show (c.Run env' cfg).1.output ≠ ""
      rw [hres]; exact hmsg
    rw [stdout_cons_line cfg _ [] hne]
    show spec.line c.ID (c.Run env' cfg).1.output ++ spec.stdout cfg [] = _
    rw [hres]
    simp [spec.stdout, String.join, spec.line]

/-- C12 on the second scenario of the spec: unit b has health 1, and the dispatcher prints
the one line of the check. -/
theorem C12_message_empty_iff_OK_witness :
    (RunCheck (exampleEnv ⟨[exampleUnit "a" 0, exampleUnit "b" 1]⟩)
      (exampleCfg "master" true "10.0.0.5")
      [componentsCheck.toChecker (exampleEnv ⟨[exampleUnit "a" 0, exampleUnit "b" 1]⟩)]).stdout
      = "[DC/OS components health check]: component b has health status 1\n" :=
  ((C12_message_empty_iff_OK ⟨[]⟩).2.2.2
    (exampleEnv ⟨[exampleUnit "a" 0, exampleUnit "b" 1]⟩)
    (exampleEnv ⟨[exampleUnit "a" 0, exampleUnit "b" 1]⟩)
    (exampleCfg "master" true "10.0.0.5") componentsCheck
    "component b has health status 1" (by decide)).2

/-- C13: `checkHealth` returns only the codes OK (0) and FAILURE (2), and `Run` returns only
OK, FAILURE and UNKNOWN (3), in every world and for every configuration: never WARNING (1). -/
theorem C13_Run_never_warning (env : Env) (c : ComponentCheck) (cfg : CLIConfigFlags)
    (d : diagnosticsResponse) :
    (d.checkHealth.2 = 0 ∨ d.checkHealth.2 = 2) ∧
    ((c.Run env cfg).1.retCode = 0 ∨ (c.Run env cfg).1.retCode = 2 ∨
      (c.Run env cfg).1.retCode = 3) ∧
    (c.Run env cfg).1.retCode ≠ statusWarning ∧ d.checkHealth.2 ≠ statusWarning := by
  have hch : ∀ dr : diagnosticsResponse, dr.checkHealth.2 = 0 ∨ dr.checkHealth.2 = 2 := by
    intro dr
    rw [checkHealth_snd]
    by_cases h : (spec.complaints dr).length > 0
    · rw [if_pos h]; exact Or.inr rfl
    · rw [if_neg h]; exact Or.inl rfl
  have hrun : (c.Run env cfg).1.retCode = 0 ∨ (c.Run env cfg).1.retCode = 2 ∨
      (c.Run env cfg).1.retCode = 3 := by
    simp only [ComponentCheck.Run]
    rcases c.getHealthURL env env.healthURLPrefix cfg with ⟨res, evs⟩
    cases res with
    | error e => exact Or.inl rfl
    | ok url =>
      simp only
      cases env.NewRequest "GET" (env.urlString url) with
      | error e => exact Or.inr (Or.inr rfl)
      | ok req =>
        simp only
        cases env.Do req with
        | error e => exact Or.inr (Or.inr rfl)
        | ok resp =>
          simp only
          cases resp.Body with
          | error e => exact Or.inr (Or.inr rfl)
          | ok body =>
            simp only
            cases env.Unmarshal body with
            | error e => exact Or.inr (Or.inr rfl)
            | ok dr =>
              rcases hch dr with h | h
              · exact Or.inl h
              · exact Or.inr (Or.inl h)
  refine ⟨hch d, hrun, ?_, ?_⟩
  · rcases hrun with h | h | h <;> rw [h] <;> decide
  · rcases hch d with h | h <;> rw [h] <;> decide

/-! ## C14: host and path of the health URL -/

/-- C14: for a valid role, either value of force_tls, a resolved node IP and any path, the URL
of `getHealthURL` has the input path, and its host is `<ip>:<port>` for an IPv4 address and
`[<ip>]:<port>` for an IPv6 address, `<ip>` being the text `net.IP.String` gives for the address
(without a colon for IPv4, with one for IPv6) and `<port>` the port of the matrix in decimal. -/
theorem C14_getHealthURL_host_path (env : Env) (c : ComponentCheck) (path : String)
    (cfg : CLIConfigFlags) (ip : net.IP) (evs : List Event)
    (hrole : cfg.Role = "master" ∨ cfg.Role = "agent" ∨ cfg.Role = "agent_public")
    (hip : cfg.IP env = (Except.ok ip, evs))
    (hv4 : net.IP.isIPv4 ip → ':' ∉ (env.ipString ip).data)
    (hv6 : net.IP.isIPv6 ip → ':' ∈ (env.ipString ip).data) :
    ∃ url : URL,
      c.getHealthURL env path cfg = (Except.ok url, evs) ∧
      url.Path = path ∧
      (net.IP.isIPv4 ip →
        url.Host = env.ipString ip ++ ":" ++ toString (spec.portMatrix cfg.Role cfg.ForceTLS)) ∧
      (net.IP.isIPv6 ip →
        url.Host
          = "[" ++ env.ipString ip ++ "]:" ++ toString (spec.portMatrix cfg.Role cfg.ForceTLS)) := by
  refine ⟨⟨if cfg.ForceTLS then "https" else "http",
    net.JoinHostPort (env.ipString ip) (strconv.Itoa (spec.portMatrix cfg.Role cfg.ForceTLS)),
    path⟩, ?_, rfl, ?_, ?_⟩
  · simp [ComponentCheck.getHealthURL, portsMap_lookup_valid cfg.Role cfg.ForceTLS hrole, hip]
  · intro h4
    simp only [net.JoinHostPort, if_neg (hv4 h4), strconv.Itoa]
  · intro h6
    simp only [net.JoinHostPort, if_pos (hv6 h6), strconv.Itoa]

/-- C14 on a public agent with TLS whose node IP literal is the IPv6 address `::1`. -/
theorem C14_getHealthURL_host_path_witness :
    ∃ url : URL,
      componentsCheck.getHealthURL (exampleEnv ⟨[]⟩) "/system/health/v1"
        (exampleCfg "agent_public" true "::1") = (Except.ok url, []) ∧
      url.Path = "/system/health/v1" ∧ url.Host = "[::1]:61002" := by
  have h6 : net.IP.isIPv6 [0, 0, 0, 0, 0, 0, 0, 0, 0, 0, 0, 0, 0, 0, 0, 1] :=
    ⟨by decide, by decide⟩
  obtain ⟨url, h1, h2, _, h4⟩ :=
    C14_getHealthURL_host_path (exampleEnv ⟨[]⟩) componentsCheck "/system/health/v1"
      (exampleCfg "agent_public" true "::1") [0, 0, 0, 0, 0, 0, 0, 0, 0, 0, 0, 0, 0, 0, 0, 1] []
      (Or.inr (Or.inr rfl)) (by decide)
      (fun h4 => absurd h6.2 h4) (fun _ => by decide)
  exact ⟨url, h1, h2, (h4 h6).trans (by decide)⟩

/-! ## C15: the health evaluation reads name and health only -/

theorem complaints_congr (us vs : List diagnosticsUnit)
    (h : List.Forall₂ (fun u v => u.Name = v.Name ∧ u.Health = v.Health) us vs) :
    spec.complaints ⟨us⟩ = spec.complaints ⟨vs⟩ := by
  induction h with
  | nil => rfl
  | cons hab _ ih =>
    obtain ⟨hn, hh⟩ := hab
    simp only [spec.complaints] at ih ⊢
    simp only [List.filter_cons, hh]
    split
    · simp only [List.map_cons, hn, hh, ih]
    · exact ih

/-- C15: two diagnostics responses with the same number of units that agree, position by
position, on name and health get the same complaint list and the same code from `checkHealth`,
whatever their id, output, description and help are. -/
theorem C15_checkHealth_name_health_only (d₁ d₂ : diagnosticsResponse)
    (hlen : d₁.Units.length = d₂.Units.length)
    (hagree : ∀ (i : Nat) (h₁ : i < d₁.Units.length) (h₂ : i < d₂.Units.length),
      (d₁.Units.get ⟨i, h₁⟩).Name = (d₂.Units.get ⟨i, h₂⟩).Name ∧
      (d₁.Units.get ⟨i, h₁⟩).Health = (d₂.Units.get ⟨i, h₂⟩).Health) :
    d₁.checkHealth.1 = d₂.checkHealth.1 ∧ d₁.checkHealth.2 = d₂.checkHealth.2 := by
  have hc : spec.complaints d₁ = spec.complaints d₂ :=
    complaints_congr d₁.Units d₂.Units (List.forall₂_iff_get.mpr ⟨hlen, hagree⟩)
  refine ⟨?_, ?_⟩
  · rw [checkHealth_fst, checkHealth_fst, hc]
  · rw [checkHealth_snd, checkHealth_snd, hc]

/-- C15 on two responses of two units that differ in id, output, description and help. -/
theorem C15_checkHealth_name_health_only_witness :
    (diagnosticsResponse.checkHealth
        ⟨[⟨"id1", 0, "out", "descr", "help", "a"⟩, ⟨"id2", 3, "", "", "", "b"⟩]⟩).1
      = (diagnosticsResponse.checkHealth ⟨[exampleUnit "a" 0, exampleUnit "b" 3]⟩).1 :=
  (C15_checkHealth_name_health_only
    ⟨[⟨"id1", 0, "out", "descr", "help", "a"⟩, ⟨"id2", 3, "", "", "", "b"⟩]⟩
    ⟨[exampleUnit "a" 0, exampleUnit "b" 3]⟩ rfl
    (by
      intro i h₁ h₂
      have hi : i < 2 := h₁
      match i, hi with
      | 0, _ => exact ⟨rfl, rfl⟩
      | 1, _ => exact ⟨rfl, rfl⟩)).1

/-! ## C16: after the startup validation the port lookup succeeds -/

theorem validated_role (env : Env) (cli : CLIConfigFlags)
    (hval : (cli.validateRequiredFlags env).1 = none) :
    cli.Role = "master" ∨ cli.Role = "agent" ∨ cli.Role = "agent_public" := by
  by_contra hrole
  have hcond : cli.Role ≠ dcos.RoleMaster ∧ cli.Role ≠ dcos.RoleAgent ∧
      cli.Role ≠ dcos.RoleAgentPublic := by
    simp only [dcos.RoleMaster, dcos.RoleAgent, dcos.RoleAgentPublic]
    tauto
  simp [CLIConfigFlags.validateRequiredFlags, hcond] at hval

/-- C16: for a configuration that `validateRequiredFlags` accepts, the port lookup of
`getHealthURL` succeeds for either value of force_tls; so `getHealthURL`, in whatever world it
runs later and for any path, returns an error only when the resolution of the node IP fails,
with that very error, and the branch of the invalid role is not taken. -/
theorem C16_validated_lookup (env : Env) (cli : CLIConfigFlags)
    (hval : (cli.validateRequiredFlags env).1 = none) :
    (∀ forceTLS : Bool, ∃ port : Int, portsMap.lookup cli.Role forceTLS = some port) ∧
    (∀ (env' : Env) (c : ComponentCheck) (path : String) (forceTLS : Bool) (err : GoError)
      (evs : List Event),
      c.getHealthURL env' path { cli with ForceTLS := forceTLS } = (Except.error err, evs) →
      CLIConfigFlags.IP env' { cli with ForceTLS := forceTLS } = (Except.error err, evs)) := by
  have hrole := validated_role env cli hval
  refine ⟨fun forceTLS => ⟨_, portsMap_lookup_valid cli.Role forceTLS hrole⟩, ?_⟩
  intro env' c path forceTLS err evs hurl
  have hl : portsMap.lookup ({ cli with ForceTLS := forceTLS } : CLIConfigFlags).Role
      ({ cli with ForceTLS := forceTLS } : CLIConfigFlags).ForceTLS
      = some (spec.portMatrix cli.Role forceTLS) :=
    portsMap_lookup_valid cli.Role forceTLS hrole
  simp only [ComponentCheck.getHealthURL, hl] at hurl
  rcases hip : CLIConfigFlags.IP env' { cli with ForceTLS := forceTLS } with ⟨res, evs'⟩
  rw [hip] at hurl
  cases res with
  | error e => simpa using hurl
  | ok ip => simp at hurl

/-- C16 on an agent with the node IP literal `10.0.0.5`: validation passes and both lookups
give a port. -/
theorem C16_validated_lookup_witness :
    ((exampleCfg "agent" false "10.0.0.5").validateRequiredFlags (exampleEnv ⟨[]⟩)).1 = none ∧
    ∀ forceTLS : Bool, ∃ port : Int, portsMap.lookup "agent" forceTLS = some port :=
  ⟨by decide, (C16_validated_lookup (exampleEnv ⟨[]⟩) (exampleCfg "agent" false "10.0.0.5")
    (by decide)).1⟩

/-! ## C17: the two dispatchers on one check -/

theorem RunCheck_single_code (env : Env) (cfg : CLIConfigFlags) (check : DCOSChecker)
    (hok : (check.Run cfg).1.err = none) :
    (checks.RunCheck env cfg check).code = (check.Run cfg).1.retCode ∧
    (RunCheck env cfg [check]).code = spec.collapse (check.Run cfg).1.retCode := by
  rcases hrun : check.Run cfg with ⟨⟨output, retCode, err⟩, evs⟩
  rw [hrun] at hok
  simp only at hok
  subst hok
  refine ⟨?_, ?_⟩
  · simp [checks.RunCheck, hrun]
  · simp only [RunCheck, RunCheck.loop, hrun, spec.collapse, statusOK, statusFailure]
    by_cases h : retCode = 0
    · simp [h]
    · simp [h]

/-- C17: for a check that returns no error, the dispatcher of checks.go exits with the code of
the check and the list dispatcher of root.go on the one-element list exits with the collapsed
code; the two exit codes are equal if and only if the code of the check is OK (0) or
FAILURE (2), and so they are equal for every run of a components check without an error. -/
theorem C17_single_vs_list (env : Env) (cfg : CLIConfigFlags) (check : DCOSChecker)
    (hok : (check.Run cfg).1.err = none) :
    (checks.RunCheck env cfg check).code = (check.Run cfg).1.retCode ∧
    (RunCheck env cfg [check]).code = spec.collapse (check.Run cfg).1.retCode ∧
    ((checks.RunCheck env cfg check).code = (RunCheck env cfg [check]).code ↔
      ((check.Run cfg).1.retCode = 0 ∨ (check.Run cfg).1.retCode = 2)) ∧
    ((∃ (env' : Env) (c : ComponentCheck), check = c.toChecker env') →
      (checks.RunCheck env cfg check).code = (RunCheck env cfg [check]).code) := by
  obtain ⟨h1, h2⟩ := RunCheck_single_code env cfg check hok
  have hiff : (checks.RunCheck env cfg check).code = (RunCheck env cfg [check]).code ↔
      ((check.Run cfg).1.retCode = 0 ∨ (check.Run cfg).1.retCode = 2) := by
    rw [h1, h2]
    unfold spec.collapse
    by_cases h : (check.Run cfg).1.retCode = 0
    · simp [h]
    · simp only [if_neg h]
      constructor
      · intro h'; exact Or.inr h'
      · intro h'; rcases h' with h' | h'
        · exact absurd h' h
        · exact h'
  refine ⟨h1, h2, hiff, ?_⟩
  rintro ⟨env', c, rfl⟩
  apply hiff.mpr
  obtain ⟨dr, hdr⟩ := Run_no_error_is_report env' c cfg hok
  show (c.Run env' cfg).1.retCode = 0 ∨ (c.Run env' cfg).1.retCode = 2
  rw [hdr, report_eq]
  by_cases h : (spec.complaints dr).length > 0
  · simp only [if_pos h]; exact Or.inr rfl
  · simp only [if_neg h]; exact Or.inl rfl

/-- C17 on a check that returns UNKNOWN (3) without an error: the dispatcher of checks.go exits
with 3 and the list dispatcher with 2. -/
theorem C17_single_vs_list_witness :
    (checks.RunCheck (exampleEnv ⟨[]⟩) (exampleCfg "master" false "10.0.0.5")
      ⟨"u", fun _ => (⟨"unsure", 3, none⟩, [])⟩).code = 3 ∧
    (RunCheck (exampleEnv ⟨[]⟩) (exampleCfg "master" false "10.0.0.5")
      [⟨"u", fun _ => (⟨"unsure", 3, none⟩, [])⟩]).code = 2 :=
  ⟨(C17_single_vs_list (exampleEnv ⟨[]⟩) (exampleCfg "master" false "10.0.0.5")
      ⟨"u", fun _ => (⟨"unsure", 3, none⟩, [])⟩ rfl).1,
   (C17_single_vs_list (exampleEnv ⟨[]⟩) (exampleCfg "master" false "10.0.0.5")
      ⟨"u", fun _ => (⟨"unsure", 3, none⟩, [])⟩ rfl).2.1⟩

end cmd
